import Mathlib

/-!
Verification of the plugin signature validator
(pkg/plugins/manager/signature/signature.go).

The validator decides, for each discovered plugin, whether it may be
loaded, based on its signature status, its classification (core /
bundled), an optional parent link (nested plugins inherit signature
details), and the policy configuration (environment mode plus an
allow-list of plugin IDs permitted to run unsigned, optionally
overridden by a caller-supplied predicate).

The decision logic (Validator.Validate and Validator.allowUnsigned) is
embedded directly from the Go source.  The data model it consumes
(the plugin descriptor, the signature-status values, the configuration)
is declared in other packages of the repository; those declarations are
modelled here from the spec, as noted on each definition.
-/

namespace GrafanaSignature

/-- Modelled from the spec: the signature status assigned to a plugin
artifact.  In the plugins package this is a string type with named
constants; any string outside the known set is an unrecognized status
and must fail closed. -/
abbrev SignatureStatus := String

/-- Modelled from the spec: the status of a plugin whose signature is
internal to the host application. -/
def SignatureInternal : SignatureStatus := "internal"

/-- Modelled from the spec: a cryptographically valid signature. -/
def SignatureValid : SignatureStatus := "valid"

/-- Modelled from the spec: an invalid signature. -/
def SignatureInvalid : SignatureStatus := "invalid"

/-- Modelled from the spec: a signature whose signed content was
modified after signing. -/
def SignatureModified : SignatureStatus := "modified"

/-- Modelled from the spec: an unsigned plugin. -/
def SignatureUnsigned : SignatureStatus := "unsigned"

/-- Modelled from the spec: the development environment mode value
(setting.Dev), the mode that relaxes the unsigned-plugin policy. -/
def Dev : String := "development"

/-- Modelled from the spec: the parent link of a nested plugin.  The
validator reads only the parent's signature status, signature type and
signature org (plus its ID, for diagnostics only); the parent tree is
owned by the discovery subsystem. -/
structure ParentPlugin where
  id : String
  signature : SignatureStatus
  signatureType : String
  signatureOrg : String
deriving DecidableEq, Repr

/-- Modelled from the spec: the plugin descriptor consumed by the
validator — unique ID, directory path (diagnostics only), signature
status/type/org, classification flags (is-core, is-bundled), and an
optional weak reference to the parent plugin. -/
structure Plugin where
  id : String
  pluginDir : String
  signature : SignatureStatus
  signatureType : String
  signatureOrg : String
  isCorePlugin : Bool
  isBundledPlugin : Bool
  parent : Option ParentPlugin
deriving DecidableEq, Repr

/-- Modelled from the spec: the typed signature error.  It carries the
plugin ID and the signature status that caused rejection; the status is
the zero value (empty string) for the unrecognized case. -/
structure PluginSignatureError where
  pluginID : String
  signatureStatus : SignatureStatus
deriving DecidableEq, Repr

/-- Modelled from the spec: the policy configuration — an environment
mode and the allow-list of plugin IDs permitted to run unsigned
(setting.Cfg.Env and setting.Cfg.PluginsAllowUnsigned). -/
structure Cfg where
  env : String
  pluginsAllowUnsigned : List String
deriving Repr

/-- The optional caller-supplied predicate overriding the unsigned
policy (type UnsignedPluginConditionFunc in signature.go). -/
abbrev UnsignedPluginConditionFunc := Plugin → Bool

/-- The Validator of signature.go: the policy configuration plus the
optional unsigned-allowance predicate (absent predicate is the nil
function value in Go, modelled as Option). -/
structure Validator where
  cfg : Cfg
  allowUnsignedPluginsCondition : Option UnsignedPluginConditionFunc

/-- NewValidator of signature.go. -/
def NewValidator (cfg : Cfg) (unsignedCond : Option UnsignedPluginConditionFunc) :
    Validator :=
  { cfg := cfg, allowUnsignedPluginsCondition := unsignedCond }

/-- Validator.allowUnsigned of signature.go (lines 87–103): the
predicate, when configured, is authoritative; otherwise development
mode allows, otherwise the allow-list is scanned for the plugin's ID
(the Go for-loop over PluginsAllowUnsigned is List.contains). -/
def Validator.allowUnsigned (s : Validator) (plugin : Plugin) : Bool :=
  match s.allowUnsignedPluginsCondition with
  | some cond => cond plugin
  | none =>
    if s.cfg.env = Dev then
      true
    else
      s.cfg.pluginsAllowUnsigned.contains plugin.id

/-- The inheritance assignment of signature.go lines 43–45: overwrite
the child's signature status, type and org with the parent's. -/
def inheritFrom (plugin : Plugin) (parent : ParentPlugin) : Plugin :=
  { plugin with
    signature := parent.signature
    signatureType := parent.signatureType
    signatureOrg := parent.signatureOrg }

/-- The tail of Validator.Validate (signature.go lines 51–85), reached
after the early returns: the core/bundled override followed by the
switch on the (possibly inherited) signature status, whose default arm
fails closed with a zero-value status. -/
def Validator.check (s : Validator) (plugin : Plugin) : Option PluginSignatureError :=
  if plugin.isCorePlugin = true ∨ plugin.isBundledPlugin = true then
    none
  else if plugin.signature = SignatureUnsigned then
    if s.allowUnsigned plugin = false then
      some { pluginID := plugin.id, signatureStatus := SignatureUnsigned }
    else
      none
  else if plugin.signature = SignatureInvalid then
    some { pluginID := plugin.id, signatureStatus := SignatureInvalid }
  else if plugin.signature = SignatureModified then
    some { pluginID := plugin.id, signatureStatus := SignatureModified }
  else
    some { pluginID := plugin.id, signatureStatus := "" }

/-- Validator.Validate of signature.go (lines 27–85).  Go mutates the
plugin in place during inheritance; the embedding returns the decision
together with the (possibly mutated) plugin.  Control flow mirrors the
source: early return on a Valid own status; inheritance from the
parent unless the child is core or its status is Internal, with an
early return when the inherited status is Valid; then Validator.check
(the core/bundled override and the status switch). -/
def Validator.Validate (s : Validator) (plugin : Plugin) :
    Option PluginSignatureError × Plugin :=
  if plugin.signature = SignatureValid then
    (none, plugin)
  else
    match plugin.parent with
    | some parent =>
      if plugin.isCorePlugin = true ∨ plugin.signature = SignatureInternal then
        (s.check plugin, plugin)
      else
        let inherited := inheritFrom plugin parent
        if inherited.signature = SignatureValid then
          (none, inherited)
        else
          (s.check inherited, inherited)
    | none => (s.check plugin, plugin)

/-- The inheritance-resolution step of Validate in isolation: the
plugin as it stands when the core/bundled check and the status switch
run (identical to the input unless the inheritance branch fired). -/
def afterInheritance (plugin : Plugin) : Plugin :=
  if plugin.signature = SignatureValid then
    plugin
  else
    match plugin.parent with
    | some parent =>
      if plugin.isCorePlugin = true ∨ plugin.signature = SignatureInternal then
        plugin
      else
        inheritFrom plugin parent
    | none => plugin

/-! Concrete descriptors and configurations, used to evaluate the
policy on explicit inputs. -/

/-- A production configuration whose allow-list holds the ID p1. -/
def cfgAllowP1 : Cfg := { env := "production", pluginsAllowUnsigned := ["p1"] }

/-- A validator over cfgAllowP1 with no predicate configured. -/
def vAllowP1 : Validator := { cfg := cfgAllowP1, allowUnsignedPluginsCondition := none }

/-- A standalone plugin with a valid signature. -/
def pValid : Plugin :=
  { id := "p0", pluginDir := "/var/lib/plugins/p0", signature := SignatureValid,
    signatureType := "grafana", signatureOrg := "Grafana Labs",
    isCorePlugin := false, isBundledPlugin := false, parent := none }

/-- A standalone unsigned external plugin with ID p1. -/
def pUnsigned : Plugin :=
  { id := "p1", pluginDir := "/var/lib/plugins/p1", signature := SignatureUnsigned,
    signatureType := "", signatureOrg := "",
    isCorePlugin := false, isBundledPlugin := false, parent := none }

/-- A core plugin that is unsigned. -/
def pCore : Plugin :=
  { id := "p2", pluginDir := "/var/lib/plugins/p2", signature := SignatureUnsigned,
    signatureType := "", signatureOrg := "",
    isCorePlugin := true, isBundledPlugin := false, parent := none }

/-- A standalone plugin with an invalid signature. -/
def pInvalid : Plugin :=
  { id := "p3", pluginDir := "/var/lib/plugins/p3", signature := SignatureInvalid,
    signatureType := "", signatureOrg := "",
    isCorePlugin := false, isBundledPlugin := false, parent := none }

/-- A standalone plugin whose status string is outside the known set. -/
def pBogus : Plugin :=
  { id := "p4", pluginDir := "/var/lib/plugins/p4", signature := "bogus",
    signatureType := "", signatureOrg := "",
    isCorePlugin := false, isBundledPlugin := false, parent := none }

/-- A standalone plugin with status Internal, neither core nor bundled. -/
def pInternal : Plugin :=
  { id := "p5", pluginDir := "/var/lib/plugins/p5", signature := SignatureInternal,
    signatureType := "", signatureOrg := "",
    isCorePlugin := false, isBundledPlugin := false, parent := none }

/-- A parent plugin with a valid signature. -/
def parValid : ParentPlugin :=
  { id := "root", signature := SignatureValid, signatureType := "grafana",
    signatureOrg := "Grafana Labs" }

/-- An unsigned non-core child nested under parValid. -/
def pChild : Plugin :=
  { id := "child", pluginDir := "/var/lib/plugins/root/child",
    signature := SignatureUnsigned, signatureType := "", signatureOrg := "",
    isCorePlugin := false, isBundledPlugin := false, parent := some parValid }

/-- An unsigned core child nested under parValid. -/
def pCoreChild : Plugin :=
  { id := "corechild", pluginDir := "/var/lib/plugins/root/corechild",
    signature := SignatureUnsigned, signatureType := "", signatureOrg := "",
    isCorePlugin := true, isBundledPlugin := false, parent := some parValid }

/-- Characterization of Validate: the returned plugin is exactly the
inheritance-resolved plugin, and the decision is nil when the resolved
status is Valid, and otherwise the outcome of the core/bundled check
and the status switch on the resolved plugin. -/
theorem Validate_eq (s : Validator) (p : Plugin) :
    s.Validate p =
      (if (afterInheritance p).signature = SignatureValid then none
       else s.check (afterInheritance p),
       afterInheritance p) := by
  by_cases h1 : p.signature = SignatureValid
  · simp [Validator.Validate, afterInheritance, h1]
  · cases hp : p.parent with
    | none => simp [Validator.Validate, afterInheritance, h1, hp]
    | some parent =>
      by_cases h2 : p.isCorePlugin = true ∨ p.signature = SignatureInternal
      · simp [Validator.Validate, afterInheritance, h1, hp, h2]
      · by_cases h3 : (inheritFrom p parent).signature = SignatureValid
        · simp [Validator.Validate, afterInheritance, h1, hp, h2, h3]
        · simp [Validator.Validate, afterInheritance, h1, hp, h2, h3]

/-- Inheritance resolution never changes the plugin's ID. -/
theorem afterInheritance_id (p : Plugin) : (afterInheritance p).id = p.id := by
  unfold afterInheritance inheritFrom
  split
  · rfl
  · split
    · split
      · rfl
      · rfl
    · rfl

/-- Inheritance resolution never changes the core classification. -/
theorem afterInheritance_isCorePlugin (p : Plugin) :
    (afterInheritance p).isCorePlugin = p.isCorePlugin := by
  unfold afterInheritance inheritFrom
  split
  · rfl
  · split
    · split
      · rfl
      · rfl
    · rfl

/-- Inheritance resolution never changes the bundled classification. -/
theorem afterInheritance_isBundledPlugin (p : Plugin) :
    (afterInheritance p).isBundledPlugin = p.isBundledPlugin := by
  unfold afterInheritance inheritFrom
  split
  · rfl
  · split
    · split
      · rfl
      · rfl
    · rfl

/-- The first component of Validate through the characterization. -/
theorem Validate_fst (s : Validator) (p : Plugin) :
    (s.Validate p).1 =
      (if (afterInheritance p).signature = SignatureValid then none
       else s.check (afterInheritance p)) := by
  rw [Validate_eq]

/-- The second component of Validate is the inheritance-resolved
plugin. -/
theorem Validate_snd (s : Validator) (p : Plugin) :
    (s.Validate p).2 = afterInheritance p := by
  rw [Validate_eq]

/-- The core/bundled override arm of check. -/
theorem check_core_or_bundled (s : Validator) (plugin : Plugin)
    (h : plugin.isCorePlugin = true ∨ plugin.isBundledPlugin = true) :
    s.check plugin = none := by
  unfold Validator.check
  rw [if_pos h]

/-- The Unsigned arm of check: the outcome is decided by
allowUnsigned. -/
theorem check_unsigned (s : Validator) (plugin : Plugin)
    (hc : plugin.isCorePlugin = false) (hb : plugin.isBundledPlugin = false)
    (hsig : plugin.signature = SignatureUnsigned) :
    s.check plugin =
      (if s.allowUnsigned plugin = false then
        some { pluginID := plugin.id, signatureStatus := SignatureUnsigned }
      else none) := by
  unfold Validator.check
  rw [if_neg (by simp [hc, hb]), if_pos hsig]

/-- The Invalid arm of check. -/
theorem check_invalid (s : Validator) (plugin : Plugin)
    (hc : plugin.isCorePlugin = false) (hb : plugin.isBundledPlugin = false)
    (hsig : plugin.signature = SignatureInvalid) :
    s.check plugin =
      some { pluginID := plugin.id, signatureStatus := SignatureInvalid } := by
  unfold Validator.check
  rw [if_neg (by simp [hc, hb]), if_neg (by rw [hsig]; decide), if_pos hsig]

/-- The Modified arm of check. -/
theorem check_modified (s : Validator) (plugin : Plugin)
    (hc : plugin.isCorePlugin = false) (hb : plugin.isBundledPlugin = false)
    (hsig : plugin.signature = SignatureModified) :
    s.check plugin =
      some { pluginID := plugin.id, signatureStatus := SignatureModified } := by
  unfold Validator.check
  rw [if_neg (by simp [hc, hb]), if_neg (by rw [hsig]; decide),
    if_neg (by rw [hsig]; decide), if_pos hsig]

/-- The fail-closed default arm of check: any status outside
Unsigned/Invalid/Modified is rejected with a zero-value status. -/
theorem check_default (s : Validator) (plugin : Plugin)
    (hc : plugin.isCorePlugin = false) (hb : plugin.isBundledPlugin = false)
    (hu : plugin.signature ≠ SignatureUnsigned)
    (hi : plugin.signature ≠ SignatureInvalid)
    (hm : plugin.signature ≠ SignatureModified) :
    s.check plugin = some { pluginID := plugin.id, signatureStatus := "" } := by
  unfold Validator.check
  rw [if_neg (by simp [hc, hb]), if_neg hu, if_neg hi, if_neg hm]

/-- allowUnsigned, characterized: the configured predicate is
authoritative; otherwise development mode or allow-list membership. -/
theorem allowUnsigned_iff (s : Validator) (plugin : Plugin) :
    s.allowUnsigned plugin = true ↔
      (match s.allowUnsignedPluginsCondition with
       | some cond => cond plugin = true
       | none => s.cfg.env = Dev ∨ plugin.id ∈ s.cfg.pluginsAllowUnsigned) := by
  unfold Validator.allowUnsigned
  cases s.allowUnsignedPluginsCondition with
  | some cond => exact Iff.rfl
  | none =>
    by_cases hdev : s.cfg.env = Dev
    · simp [hdev]
    · simp [hdev, List.contains]

/-- Claim C1: a plugin classified core or bundled is always allowed,
whatever its signature status after inheritance resolution. -/
theorem validate_core_or_bundled_allows (s : Validator) (p : Plugin)
    (h : p.isCorePlugin = true ∨ p.isBundledPlugin = true) :
    (s.Validate p).1 = none := by
  rw [Validate_fst]
  by_cases h3 : (afterInheritance p).signature = SignatureValid
  · rw [if_pos h3]
  · rw [if_neg h3]
    refine check_core_or_bundled s _ ?_
    rw [afterInheritance_isCorePlugin, afterInheritance_isBundledPlugin]
    exact h

/-- Claim C1 witness: an unsigned core plugin is allowed. -/
theorem validate_core_or_bundled_allows_witness :
    (vAllowP1.Validate pCore).1 = none :=
  validate_core_or_bundled_allows vAllowP1 pCore (Or.inl rfl)

/-- Claim C2: for a non-core, non-bundled plugin whose status after
inheritance is Unsigned, the decision is nil exactly when a configured
predicate accepts the (resolved) plugin — the environment mode and the
allow-list are then irrelevant — and, with no predicate, exactly when
the environment mode is development or the plugin ID is in the
allow-list; any rejection carries status Unsigned. -/
theorem validate_unsigned_policy (s : Validator) (p : Plugin)
    (hc : p.isCorePlugin = false) (hb : p.isBundledPlugin = false)
    (hu : (s.Validate p).2.signature = SignatureUnsigned) :
    ((s.Validate p).1 = none ↔
      (match s.allowUnsignedPluginsCondition with
       | some cond => cond ((s.Validate p).2) = true
       | none => s.cfg.env = Dev ∨ p.id ∈ s.cfg.pluginsAllowUnsigned)) ∧
    ((s.Validate p).1 = none ∨
      (s.Validate p).1 =
        some { pluginID := p.id, signatureStatus := SignatureUnsigned }) := by
  have hu' : (afterInheritance p).signature = SignatureUnsigned := by
    rw [← Validate_snd s p]; exact hu
  have hnv : ¬ (afterInheritance p).signature = SignatureValid := by
    rw [hu']; decide
  have hc' : (afterInheritance p).isCorePlugin = false := by
    rw [afterInheritance_isCorePlugin]; exact hc
  have hb' : (afterInheritance p).isBundledPlugin = false := by
    rw [afterInheritance_isBundledPlugin]; exact hb
  have hfst : (s.Validate p).1 =
      (if s.allowUnsigned (afterInheritance p) = false then
        some { pluginID := p.id, signatureStatus := SignatureUnsigned }
      else none) := by
    rw [Validate_fst, if_neg hnv, check_unsigned s (afterInheritance p) hc' hb' hu',
      afterInheritance_id]
  constructor
  · have hiff : (s.Validate p).1 = none ↔
        s.allowUnsigned (afterInheritance p) = true := by
      rw [hfst]
      by_cases hA : s.allowUnsigned (afterInheritance p) = true
      · have : ¬ s.allowUnsigned (afterInheritance p) = false := by simp [hA]
        rw [if_neg this]
        simp [hA]
      · have hA' : s.allowUnsigned (afterInheritance p) = false := by
          simpa using hA
        rw [if_pos hA']
        simp [hA']
    rw [Validate_snd, hiff, allowUnsigned_iff, afterInheritance_id]
  · rw [hfst]
    by_cases hA : s.allowUnsigned (afterInheritance p) = false
    · right; rw [if_pos hA]
    · left; rw [if_neg hA]

/-- Claim C2 witness: an unsigned plugin whose ID is on the allow-list
of a production configuration with no predicate. -/
theorem validate_unsigned_policy_witness :
    ((vAllowP1.Validate pUnsigned).1 = none ↔
      (match vAllowP1.allowUnsignedPluginsCondition with
       | some cond => cond ((vAllowP1.Validate pUnsigned).2) = true
       | none => vAllowP1.cfg.env = Dev ∨
           pUnsigned.id ∈ vAllowP1.cfg.pluginsAllowUnsigned)) ∧
    ((vAllowP1.Validate pUnsigned).1 = none ∨
      (vAllowP1.Validate pUnsigned).1 =
        some { pluginID := pUnsigned.id, signatureStatus := SignatureUnsigned }) :=
  validate_unsigned_policy vAllowP1 pUnsigned rfl rfl (by decide)

/-- Claim C3: a non-core child with a parent, whose own status is
neither Valid nor Internal, takes the parent's signature status, type
and org; if the inherited status is Valid the decision is nil
immediately. -/
theorem validate_inherits_from_parent (s : Validator) (p : Plugin)
    (par : ParentPlugin) (hpar : p.parent = some par)
    (hcore : p.isCorePlugin = false)
    (hval : p.signature ≠ SignatureValid)
    (hint : p.signature ≠ SignatureInternal) :
    (s.Validate p).2 = inheritFrom p par ∧
      (par.signature = SignatureValid → (s.Validate p).1 = none) := by
  have hcond : ¬ (p.isCorePlugin = true ∨ p.signature = SignatureInternal) := by
    simp [hcore, hint]
  constructor
  · rw [Validate_snd]
    unfold afterInheritance
    rw [if_neg hval, hpar]
    simp [hcond]
  · intro hv
    have hsig : (inheritFrom p par).signature = SignatureValid := by
      show par.signature = SignatureValid
      exact hv
    rw [Validate_fst]
    have hafter : afterInheritance p = inheritFrom p par := by
      unfold afterInheritance
      rw [if_neg hval, hpar]
      simp [hcond]
    rw [hafter, if_pos hsig]

/-- Claim C3 witness: an unsigned child under a valid parent inherits
the parent's signature fields and is allowed. -/
theorem validate_inherits_from_parent_witness :
    (vAllowP1.Validate pChild).2 = inheritFrom pChild parValid ∧
      (parValid.signature = SignatureValid → (vAllowP1.Validate pChild).1 = none) :=
  validate_inherits_from_parent vAllowP1 pChild parValid rfl rfl
    (by decide) (by decide)

/-- Claim C4: a non-core, non-bundled plugin whose status after
inheritance is outside Valid/Unsigned/Invalid/Modified is rejected
with a zero-value status field — never allowed. -/
theorem validate_unrecognized_fails_closed (s : Validator) (p : Plugin)
    (hc : p.isCorePlugin = false) (hb : p.isBundledPlugin = false)
    (h1 : (s.Validate p).2.signature ≠ SignatureValid)
    (h2 : (s.Validate p).2.signature ≠ SignatureUnsigned)
    (h3 : (s.Validate p).2.signature ≠ SignatureInvalid)
    (h4 : (s.Validate p).2.signature ≠ SignatureModified) :
    (s.Validate p).1 = some { pluginID := p.id, signatureStatus := "" } := by
  rw [Validate_snd] at h1 h2 h3 h4
  have hc' : (afterInheritance p).isCorePlugin = false := by
    rw [afterInheritance_isCorePlugin]; exact hc
  have hb' : (afterInheritance p).isBundledPlugin = false := by
    rw [afterInheritance_isBundledPlugin]; exact hb
  rw [Validate_fst, if_neg h1, check_default s _ hc' hb' h2 h3 h4,
    afterInheritance_id]

/-- Claim C4 witness: a plugin with the unknown status bogus is
rejected with a zero-value status. -/
theorem validate_unrecognized_fails_closed_witness :
    (vAllowP1.Validate pBogus).1 =
      some { pluginID := pBogus.id, signatureStatus := "" } :=
  validate_unrecognized_fails_closed vAllowP1 pBogus rfl rfl
    (by decide) (by decide) (by decide) (by decide)

/-- Claim C5: a non-core, non-bundled plugin whose status after
inheritance is Invalid (resp. Modified) is rejected with an error
carrying its ID and status Invalid (resp. Modified). -/
theorem validate_invalid_or_modified_rejected (s : Validator) (p : Plugin)
    (hc : p.isCorePlugin = false) (hb : p.isBundledPlugin = false) :
    ((s.Validate p).2.signature = SignatureInvalid →
      (s.Validate p).1 =
        some { pluginID := p.id, signatureStatus := SignatureInvalid }) ∧
    ((s.Validate p).2.signature = SignatureModified →
      (s.Validate p).1 =
        some { pluginID := p.id, signatureStatus := SignatureModified }) := by
  have hc' : (afterInheritance p).isCorePlugin = false := by
    rw [afterInheritance_isCorePlugin]; exact hc
  have hb' : (afterInheritance p).isBundledPlugin = false := by
    rw [afterInheritance_isBundledPlugin]; exact hb
  constructor
  · intro h
    rw [Validate_snd] at h
    rw [Validate_fst, if_neg (by rw [h]; decide), check_invalid s _ hc' hb' h,
      afterInheritance_id]
  · intro h
    rw [Validate_snd] at h
    rw [Validate_fst, if_neg (by rw [h]; decide), check_modified s _ hc' hb' h,
      afterInheritance_id]

/-- Claim C5 witness: a plugin with an invalid signature. -/
theorem validate_invalid_or_modified_rejected_witness :
    ((vAllowP1.Validate pInvalid).2.signature = SignatureInvalid →
      (vAllowP1.Validate pInvalid).1 =
        some { pluginID := pInvalid.id, signatureStatus := SignatureInvalid }) ∧
    ((vAllowP1.Validate pInvalid).2.signature = SignatureModified →
      (vAllowP1.Validate pInvalid).1 =
        some { pluginID := pInvalid.id, signatureStatus := SignatureModified }) :=
  validate_invalid_or_modified_rejected vAllowP1 pInvalid rfl rfl

/-- Claim C6: a plugin whose own status is Valid is allowed
immediately and none of its fields are mutated. -/
theorem validate_valid_allows (s : Validator) (p : Plugin)
    (h : p.signature = SignatureValid) :
    s.Validate p = (none, p) := by
  unfold Validator.Validate
  rw [if_pos h]

/-- Claim C6 witness: a standalone plugin with a valid signature. -/
theorem validate_valid_allows_witness :
    vAllowP1.Validate pValid = (none, pValid) :=
  validate_valid_allows vAllowP1 pValid rfl

/-- Claim C7: a child that is itself core, or whose own status is
Internal, keeps all its fields unchanged even though a parent exists:
no signature detail is copied from the parent. -/
theorem validate_no_inheritance_for_core_or_internal (s : Validator)
    (p : Plugin) (par : ParentPlugin) (hpar : p.parent = some par)
    (h : p.isCorePlugin = true ∨ p.signature = SignatureInternal) :
    (s.Validate p).2 = p := by
  rw [Validate_snd]
  unfold afterInheritance
  by_cases h1 : p.signature = SignatureValid
  · rw [if_pos h1]
  · rw [if_neg h1, hpar]
    simp [h]

/-- Claim C7 witness: an unsigned core child under a valid parent is
not mutated. -/
theorem validate_no_inheritance_for_core_or_internal_witness :
    (vAllowP1.Validate pCoreChild).2 = pCoreChild :=
  validate_no_inheritance_for_core_or_internal vAllowP1 pCoreChild parValid
    rfl (Or.inl rfl)

/-- Claim C8: a first call on an inheriting child under a Valid parent
returns nil and rewrites the child to the inherited plugin; a second
call on that inherited plugin returns nil again and mutates nothing. -/
theorem validate_idempotent_after_inheritance (s : Validator) (p : Plugin)
    (par : ParentPlugin) (hpar : p.parent = some par)
    (hcore : p.isCorePlugin = false)
    (hval : p.signature ≠ SignatureValid)
    (hint : p.signature ≠ SignatureInternal)
    (hps : par.signature = SignatureValid) :
    s.Validate p = (none, inheritFrom p par) ∧
      s.Validate (inheritFrom p par) = (none, inheritFrom p par) := by
  have hcond : ¬ (p.isCorePlugin = true ∨ p.signature = SignatureInternal) := by
    simp [hcore, hint]
  have hsig : (inheritFrom p par).signature = SignatureValid := by
    show par.signature = SignatureValid
    exact hps
  constructor
  · unfold Validator.Validate
    rw [if_neg hval, hpar]
    simp [hcond, hsig]
  · unfold Validator.Validate
    rw [if_pos hsig]

/-- Claim C8 witness: the unsigned child under a valid parent, then
the already-inherited result. -/
theorem validate_idempotent_after_inheritance_witness :
    vAllowP1.Validate pChild = (none, inheritFrom pChild parValid) ∧
      vAllowP1.Validate (inheritFrom pChild parValid) =
        (none, inheritFrom pChild parValid) :=
  validate_idempotent_after_inheritance vAllowP1 pChild parValid rfl rfl
    (by decide) (by decide) rfl

/-- Claim C9: Validate is deterministic — equal validator (same
configuration and same predicate) and equal plugin give the same
decision and the same resulting plugin. -/
theorem validate_deterministic (s₁ s₂ : Validator) (p₁ p₂ : Plugin)
    (hs : s₁ = s₂) (hp : p₁ = p₂) :
    s₁.Validate p₁ = s₂.Validate p₂ := by
  rw [hs, hp]

/-- Claim C9 witness: two identical calls agree. -/
theorem validate_deterministic_witness :
    vAllowP1.Validate pUnsigned = vAllowP1.Validate pUnsigned :=
  validate_deterministic vAllowP1 vAllowP1 pUnsigned pUnsigned rfl rfl

/-- Claim C10: a non-core, non-bundled plugin whose status after
inheritance is Internal falls through the switch's default arm and is
rejected with a zero-value status field. -/
theorem validate_internal_rejected (s : Validator) (p : Plugin)
    (hc : p.isCorePlugin = false) (hb : p.isBundledPlugin = false)
    (h : (s.Validate p).2.signature = SignatureInternal) :
    (s.Validate p).1 = some { pluginID := p.id, signatureStatus := "" } := by
  rw [Validate_snd] at h
  have hc' : (afterInheritance p).isCorePlugin = false := by
    rw [afterInheritance_isCorePlugin]; exact hc
  have hb' : (afterInheritance p).isBundledPlugin = false := by
    rw [afterInheritance_isBundledPlugin]; exact hb
  rw [Validate_fst, if_neg (by rw [h]; decide),
    check_default s _ hc' hb' (by rw [h]; decide) (by rw [h]; decide)
      (by rw [h]; decide),
    afterInheritance_id]

/-- Claim C10 witness: a standalone non-core plugin with status
Internal is rejected with a zero-value status. -/
theorem validate_internal_rejected_witness :
    (vAllowP1.Validate pInternal).1 =
      some { pluginID := pInternal.id, signatureStatus := "" } :=
  validate_internal_rejected vAllowP1 pInternal rfl rfl (by decide)

end GrafanaSignature
